import Mathlib

/-!
Shallow embedding of the LLM request-orchestration layer of
`my_discord_ai_bot.py` (a Discord bot with an Ollama primary provider and an
OpenAI fallback), together with theorems checking the design specification
against the code.

The embedding covers:
* Python string helpers (`str.strip()`, slicing) over `List Char`;
* the JSON value model and the `.get` / `[0]` / `.strip()` access chain used
  to extract response text (`_make_api_request`, lines 264-274);
* the request builder and transport of `_make_api_request` (lines 175-274),
  with the HTTP outcome supplied as an explicit parameter;
* the primary/fallback dispatcher `ask_llm` (lines 135-172);
* the reply post-processing of `handle_question` (lines 352-361);
* `load_system_prompt` (lines 66-81).

Exceptions are modelled by the inductive `PyExc`; the class-hierarchy facts
used (which exceptions are subclasses of `aiohttp.ClientError`) are recorded
at `isCaughtByAskLlm`.
-/

namespace CooperBot

/-! ### Python string primitives -/

/-- The whitespace characters stripped by Python `str.strip()`
(the ASCII whitespace set). -/
def isPySpace (c : Char) : Bool :=
  c == ' ' || c == '\t' || c == '\n' || c == '\r' || c == '\x0B' || c == '\x0C'

/-- Strip leading and trailing whitespace from a character list. -/
def pyStripList (l : List Char) : List Char :=
  ((l.dropWhile isPySpace).reverse.dropWhile isPySpace).reverse

/-- Python `s.strip()`. -/
def pyStrip (s : String) : String := String.mk (pyStripList s.data)

/-- Python `s[:n]`: slicing by code points. -/
def pyTake (s : String) (n : Nat) : String := String.mk (s.data.take n)

/-! ### Configuration constants (lines 26-52 of the source) -/

def MAX_RESPONSE_LENGTH : Nat := 400

def LOCAL_LLM_TIMEOUT : Nat := 5

def REMOTE_API_TIMEOUT : Nat := 30

def API_PROVIDER_OLLAMA : String := "ollama"

def API_PROVIDER_OPENAI : String := "openai"

def API_PROVIDER_FALLBACK : String := "fallback"

def DEFAULT_OPENAI_MODEL : String := "gpt-3.5-turbo"

/-! ### JSON values and Python-style access

`response.json()` yields a Python object; the extraction code then runs
`data.get("message", \x7b\x7d).get("content", "").strip()` (LOCAL) or
`data.get("choices", [\x7b\x7d])[0].get("message", \x7b\x7d).get("content", "").strip()`
(REMOTE).  Each step can raise: `.get` on a non-dict raises AttributeError,
`[0]` on an empty list (or empty string) raises IndexError, on a dict a
KeyError, on other values a TypeError, and `.strip()` on a non-string raises
AttributeError. -/

inductive Json where
  | null : Json
  | bool (b : Bool) : Json
  | num (n : Int) : Json
  | str (s : String) : Json
  | arr (xs : List Json) : Json
  | obj (fields : List (String × Json)) : Json

/-- The Python exceptions that can surface in the orchestration layer. -/
inductive PyExc where
  /-- `aiohttp.ClientConnectorError`: connection-level failure
  (subclass of `aiohttp.ClientError`). -/
  | clientConnectorError : PyExc
  /-- `aiohttp.ClientResponseError` with the given HTTP status, raised by
  `response.raise_for_status()` (subclass of `aiohttp.ClientError`). -/
  | clientResponseError (status : Nat) : PyExc
  /-- `aiohttp.ContentTypeError`: `response.json()` on a non-JSON content
  type (subclass of `aiohttp.ClientResponseError`, hence of `ClientError`). -/
  | contentTypeError : PyExc
  /-- `asyncio.TimeoutError`: the request exceeded its total timeout. -/
  | timeoutError : PyExc
  /-- `ValueError` with a message (raised by the request builder). -/
  | valueError (msg : String) : PyExc
  /-- `json.JSONDecodeError`: unparsable JSON body (subclass of `ValueError`,
  NOT of `aiohttp.ClientError`). -/
  | jsonDecodeError : PyExc
  /-- `IndexError` (e.g. `[][0]`). -/
  | indexError : PyExc
  /-- `KeyError` (e.g. `d[0]` on a dict without key `0`). -/
  | keyError : PyExc
  /-- `TypeError` (e.g. indexing `None` or a number). -/
  | typeError : PyExc
  /-- `AttributeError` (e.g. `.get` or `.strip()` on a value lacking it). -/
  | attributeError : PyExc
deriving DecidableEq

/-- Python `obj.get(key, default)`. -/
def jsonGet (j : Json) (key : String) (default : Json) : Except PyExc Json :=
  match j with
  | .obj fields =>
    match fields.find? (fun p => p.1 == key) with
    | some p => .ok p.2
    | none => .ok default
  | _ => .error .attributeError

/-- Python `x[0]`. -/
def jsonIndexZero (j : Json) : Except PyExc Json :=
  match j with
  | .arr [] => .error .indexError
  | .arr (x :: _) => .ok x
  | .str s =>
    match s.data with
    | [] => .error .indexError
    | c :: _ => .ok (.str (String.mk [c]))
  | .obj _ => .error .keyError
  | _ => .error .typeError

/-- Python `x.strip()` on the extracted content value. -/
def jsonStrip (j : Json) : Except PyExc String :=
  match j with
  | .str s => .ok (pyStrip s)
  | _ => .error .attributeError

/-- Response-text extraction for the OpenAI provider (line 268):
`data.get("choices", [\x7b\x7d])[0].get("message", \x7b\x7d).get("content", "").strip()`. -/
def extractOpenai (data : Json) : Except PyExc String := do
  let choices ← jsonGet data "choices" (.arr [.obj []])
  let first ← jsonIndexZero choices
  let message ← jsonGet first "message" (.obj [])
  let content ← jsonGet message "content" (.str "")
  jsonStrip content

/-- Response-text extraction for the Ollama provider (line 272):
`data.get("message", \x7b\x7d).get("content", "").strip()`. -/
def extractOllama (data : Json) : Except PyExc String := do
  let message ← jsonGet data "message" (.obj [])
  let content ← jsonGet message "content" (.str "")
  jsonStrip content

/-! ### HTTP outcomes and the transport (lines 253-274)

The network is modelled by an explicit `HttpOutcome` argument: what happens
when `session.post` is awaited. -/

/-- Outcome of `response.json()` when a response arrives. -/
inductive JsonBody where
  /-- The body parsed to a JSON value. -/
  | ok (data : Json) : JsonBody
  /-- The content type was not JSON: `aiohttp.ContentTypeError`. -/
  | contentTypeFailure : JsonBody
  /-- The body was not parsable JSON: `json.JSONDecodeError`. -/
  | decodeFailure : JsonBody

/-- An HTTP response: status code plus the result of parsing its body. -/
structure HttpResponse where
  status : Nat
  body : JsonBody

/-- What the network does with one `session.post` call. -/
inductive HttpOutcome where
  /-- The request exceeded the `aiohttp.ClientTimeout` total deadline. -/
  | timeout : HttpOutcome
  /-- Connection-level failure (DNS, refused, TLS). -/
  | connFailure : HttpOutcome
  /-- A response arrived. -/
  | response (r : HttpResponse) : HttpOutcome

/-- Timeout selection (line 254):
`LOCAL_LLM_TIMEOUT if provider == API_PROVIDER_OLLAMA else REMOTE_API_TIMEOUT`. -/
def timeoutFor (provider : String) : Nat :=
  if provider == API_PROVIDER_OLLAMA then LOCAL_LLM_TIMEOUT else REMOTE_API_TIMEOUT

/-- The `async with session.post(...)` block (lines 257-274): status check and
`raise_for_status()` (aiohttp raises for status >= 400; `response.ok` is
`status < 400`), then JSON parsing and provider-specific extraction. -/
def transportResult (provider : String) (out : HttpOutcome) : Except PyExc String :=
  match out with
  | .timeout => .error .timeoutError
  | .connFailure => .error .clientConnectorError
  | .response r =>
    if 400 ≤ r.status then .error (.clientResponseError r.status)
    else
      match r.body with
      | .contentTypeFailure => .error .contentTypeError
      | .decodeFailure => .error .jsonDecodeError
      | .ok data =>
        if provider == API_PROVIDER_OPENAI then extractOpenai data
        else extractOllama data

/-! ### Module-level configuration (lines 99-128)

The environment-derived module state read by `ask_llm` and
`_make_api_request`.  `apiProvider` is already lowercased (line 100);
`openaiApiKey` is `None` or the string from the environment; `fallbackModel`
is `os.getenv("FALLBACK_MODEL", DEFAULT_OPENAI_MODEL)` (line 164).
Generation options (temperature, max tokens) are omitted: no claim concerns
them and the clamped REMOTE max-tokens value is not even attached to the
payload in the source (line 231 is commented out). -/

structure Env where
  apiProvider : String
  enableFallback : Bool
  openaiApiKey : Option String
  systemPrompt : String
  ollamaUrl : String
  openaiUrl : String
  ollamaModel : String
  openaiModel : String
  fallbackModel : String

/-- Python truthiness of `OPENAI_API_KEY` (`None` or a string). -/
def keyTruthy : Option String → Bool
  | none => false
  | some k => !(k == "")

/-- `MODEL` (lines 113-121): the OpenAI model for provider `"openai"`, the
Ollama model otherwise (both for `"ollama"` and for the `"fallback"` default). -/
def Env.primaryModel (env : Env) : String :=
  if env.apiProvider == API_PROVIDER_OPENAI then env.openaiModel else env.ollamaModel

/-- `API_URL` (lines 113-121): the OpenAI URL for provider `"openai"`, the
Ollama URL otherwise (both for `"ollama"` and for the `"fallback"` default). -/
def Env.primaryUrl (env : Env) : String :=
  if env.apiProvider == API_PROVIDER_OPENAI then env.openaiUrl else env.ollamaUrl

/-! ### The request builder and one provider attempt (lines 175-274) -/

/-- The two payload shapes built by `_make_api_request`: the OpenAI branch
(line 193) is taken exactly when `provider == "openai"`; every other provider
string gets the Ollama-shaped payload (line 238). -/
inductive PayloadShape where
  | openaiShape : PayloadShape
  | ollamaShape : PayloadShape
deriving DecidableEq

/-- An HTTP POST that was actually issued: its observable request data. -/
structure SentRequest where
  provider : String
  url : String
  shape : PayloadShape
  hasAuthHeader : Bool
  /-- The `messages` array as (role, content) pairs. -/
  messages : List (String × String)
  modelName : String
  timeoutSeconds : Nat
deriving DecidableEq

/-- One call to `_make_api_request`: the POST it issued (if it got that far)
and its result. -/
structure ApiAttempt where
  sent : Option SentRequest
  result : Except PyExc String

/-- The OpenAI-branch request build (lines 193-236): validates the key
(line 195) and the user input (line 217) before any network call, strips the
system prompt (line 209, including the system message only when non-empty),
and defaults a blank model name (lines 223-225).  On success it returns the
`messages` array and the model name. -/
def openaiBuild (env : Env) (userInput model : String) :
    Except PyExc (List (String × String) × String) :=
  -- line 195: `if not OPENAI_API_KEY: raise ValueError(...)`
  if !(keyTruthy env.openaiApiKey) then
    .error (.valueError "OPENAI_API_KEY is required when using OpenAI provider")
  else
    -- line 209: `str(SYSTEM_PROMPT).strip() if SYSTEM_PROMPT else ""`
    let systemContent := if env.systemPrompt == "" then "" else pyStrip env.systemPrompt
    -- lines 216-218: strip the user input, reject if empty
    let userContent := pyStrip userInput
    if userContent == "" then .error (.valueError "User input cannot be empty")
    else
      -- lines 223-225: default the model name if blank
      let modelName := if pyStrip model == "" then DEFAULT_OPENAI_MODEL else pyStrip model
      -- lines 208-219: system message only if non-empty, then user message
      .ok ((if systemContent == "" then [] else [("system", systemContent)])
            ++ [("user", userContent)], modelName)

/-- `_make_api_request(session, user_input, provider, api_url, model)`
(lines 175-274).  The OpenAI branch may fail while building, before any POST;
the Ollama branch (taken for every provider string other than `"openai"`)
builds its payload unconditionally.  `out` says what the network does with
the POST. -/
def makeApiRequest (env : Env) (userInput provider apiUrl model : String)
    (out : HttpOutcome) : ApiAttempt :=
  if provider == API_PROVIDER_OPENAI then
    match openaiBuild env userInput model with
    | .error e => ⟨none, .error e⟩
    | .ok (messages, modelName) =>
      ⟨some ⟨provider, apiUrl, .openaiShape, true, messages, modelName, timeoutFor provider⟩,
        transportResult provider out⟩
  else
    -- lines 240-251: Ollama payload, system and user messages verbatim
    let messages := [("system", env.systemPrompt), ("user", userInput)]
    ⟨some ⟨provider, apiUrl, .ollamaShape, false, messages, model, timeoutFor provider⟩,
      transportResult provider out⟩

/-! ### The dispatcher `ask_llm` (lines 135-172) -/

/-- Which exceptions the `except (aiohttp.ClientError, asyncio.TimeoutError)`
clause at line 159 catches.  `ClientConnectorError`, `ClientResponseError`
and `ContentTypeError` are subclasses of `aiohttp.ClientError`;
`json.JSONDecodeError` is a `ValueError`, and `ValueError`, `IndexError`,
`KeyError`, `TypeError`, `AttributeError` are not `ClientError`s, so they
propagate uncaught. -/
def isCaughtByAskLlm : PyExc → Bool
  | .clientConnectorError => true
  | .clientResponseError _ => true
  | .contentTypeError => true
  | .timeoutError => true
  | _ => false

/-- The fallback-eligibility condition at line 161:
`API_PROVIDER == API_PROVIDER_OLLAMA and ENABLE_FALLBACK and OPENAI_API_KEY`. -/
def fallbackEligible (env : Env) : Bool :=
  env.apiProvider == API_PROVIDER_OLLAMA && env.enableFallback
    && keyTruthy env.openaiApiKey

/-- The primary attempt (line 158):
`_make_api_request(session, user_input, API_PROVIDER, API_URL, MODEL)`. -/
def primaryAttempt (env : Env) (userInput : String) (out : HttpOutcome) : ApiAttempt :=
  makeApiRequest env userInput env.apiProvider env.primaryUrl env.primaryModel out

/-- The fallback attempt (lines 164-166):
`_make_api_request(session, user_input, API_PROVIDER_OPENAI, OPENAI_URL, fallback_model)`. -/
def fallbackAttempt (env : Env) (userInput : String) (out : HttpOutcome) : ApiAttempt :=
  makeApiRequest env userInput API_PROVIDER_OPENAI env.openaiUrl env.fallbackModel out

/-- The observable trace of one `ask_llm` dispatch. -/
structure DispatchTrace where
  /-- The POSTs actually issued, in order. -/
  attempts : List SentRequest
  /-- Whether the fallback `try` block at line 163 was entered. -/
  fallbackTried : Bool
  /-- The returned text, or the exception `ask_llm` raises. -/
  result : Except PyExc String

/-- `ask_llm(user_input)` (lines 135-172).  A primary failure caught by the
`except` clause triggers the fallback when `fallbackEligible`; a failing
fallback leads to `raise primary_error` (line 169, inside
`except Exception`, so for every fallback error); otherwise the primary
outcome (or uncaught exception) surfaces unchanged. -/
def askLlm (env : Env) (userInput : String) (pOut fOut : HttpOutcome) : DispatchTrace :=
  let p := primaryAttempt env userInput pOut
  match p.result with
  | .ok s => ⟨p.sent.toList, false, .ok s⟩
  | .error e =>
    if isCaughtByAskLlm e && fallbackEligible env then
      let f := fallbackAttempt env userInput fOut
      match f.result with
      | .ok s => ⟨p.sent.toList ++ f.sent.toList, true, .ok s⟩
      | .error _ => ⟨p.sent.toList ++ f.sent.toList, true, .error e⟩
    else ⟨p.sent.toList, false, .error e⟩

/-! ### Reply post-processing in `handle_question` (lines 352-361) -/

/-- Line 354: the placeholder substituted for an empty/whitespace-only reply. -/
def couldNotGeneratePlaceholder : String :=
  "I'm sorry, I couldn't generate a response right now."

/-- Line 361: the placeholder sent when even the truncated reply is blank. -/
def havingTroublePlaceholder : String :=
  "I'm having trouble responding right now. Please try again!"

/-- Lines 352-354: `if not reply or not reply.strip(): reply = ...`
(`not reply` means `reply == ""`, which already implies `reply.strip() == ""`,
so the test is equivalent to `reply.strip() == ""`). -/
def substituteEmpty (reply : String) : String :=
  if pyStrip reply == "" then couldNotGeneratePlaceholder else reply

/-- Line 357: `truncated_reply = reply[:MAX_RESPONSE_LENGTH]`, with the
length as a parameter (the call site fixes it to 400). -/
def truncatedReply (reply : String) (maxLength : Nat) : String :=
  pyTake (substituteEmpty reply) maxLength

/-- Lines 352-361 as one function: the text `handle_question` sends for a
given raw LLM reply. -/
def postprocess (reply : String) (maxLength : Nat) : String :=
  if !(pyStrip (truncatedReply reply maxLength) == "") then truncatedReply reply maxLength
  else havingTroublePlaceholder

/-! ### `load_system_prompt` (lines 66-81) -/

/-- Line 81: the fallback prompt on a missing or empty prompt file. -/
def fallbackSystemPrompt : String :=
  "Reply always that there was an error and you cannot continue"

/-- `load_system_prompt()` with the prompt file contents as an explicit
parameter (`none` models `FileNotFoundError`).  An empty stripped content
raises `ValueError`, caught by the same handler (lines 73-81). -/
def load_system_prompt (file : Option String) : String :=
  match file with
  | none => fallbackSystemPrompt
  | some content =>
    let prompt := pyStrip content
    if prompt == "" then fallbackSystemPrompt else prompt

/-! ### Helper lemmas about stripping and truncation -/

theorem dropWhile_forall_iff (p : Char → Bool) (l : List Char) :
    (∀ a ∈ l.dropWhile p, p a = true) ↔ (∀ a ∈ l, p a = true) := by
  induction l with
  | nil => simp
  | cons x xs ih =>
    cases hx : p x with
    | true => simp [List.dropWhile_cons, hx, ih, List.forall_mem_cons]
    | false => simp [List.dropWhile_cons, hx]

theorem dropWhile_head_false (p : Char → Bool) (l : List Char) (a : Char) (t : List Char)
    (h : l.dropWhile p = a :: t) : p a = false := by
  induction l with
  | nil => simp [List.dropWhile] at h
  | cons x xs ih =>
    cases hx : p x with
    | true =>
      rw [List.dropWhile_cons, if_pos hx] at h
      exact ih h
    | false =>
      rw [List.dropWhile_cons, if_neg (by simp [hx])] at h
      rcases h with ⟨⟩
      exact hx

theorem pyStripList_eq_nil_iff (l : List Char) :
    pyStripList l = [] ↔ ∀ a ∈ l, isPySpace a = true := by
  unfold pyStripList
  rw [List.reverse_eq_nil_iff, List.dropWhile_eq_nil_iff]
  constructor
  · intro h
    rw [← dropWhile_forall_iff isPySpace l]
    intro a ha
    exact h a (List.mem_reverse.mpr ha)
  · intro h a ha
    exact (dropWhile_forall_iff isPySpace l).mpr h a (List.mem_reverse.mp ha)

theorem pyStripList_of_pyStripList_ne (l : List Char) (h : pyStripList l ≠ []) :
    pyStripList (pyStripList l) ≠ [] := by
  intro hnil
  rw [pyStripList_eq_nil_iff] at hnil
  rcases hx : List.dropWhile isPySpace (List.reverse (List.dropWhile isPySpace l)) with _ | ⟨a, t⟩
  · exact h (by unfold pyStripList; rw [hx]; rfl)
  · have ha : isPySpace a = false := dropWhile_head_false _ _ _ _ hx
    have hmem : a ∈ pyStripList l := by
      unfold pyStripList
      rw [hx]
      simp
    have := hnil a hmem
    rw [this] at ha
    exact Bool.noConfusion ha

theorem pyStrip_eq_empty_iff (s : String) :
    pyStrip s = "" ↔ pyStripList s.data = [] := by
  constructor
  · intro h
    exact congrArg String.data h
  · intro h
    unfold pyStrip
    rw [h]

theorem pyStrip_pyStrip_ne (s : String) (h : pyStrip s ≠ "") :
    pyStrip (pyStrip s) ≠ "" := by
  intro hnil
  have h1 : pyStripList s.data ≠ [] := fun hl => h ((pyStrip_eq_empty_iff s).mpr hl)
  exact pyStripList_of_pyStripList_ne s.data h1 ((pyStrip_eq_empty_iff (pyStrip s)).mp hnil)

theorem pyTake_length_le (s : String) (n : Nat) : (pyTake s n).length ≤ n := by
  show (s.data.take n).length ≤ n
  rw [List.length_take]
  exact min_le_left _ _

theorem pyStrip_pyTake_ne (s : String) (n : Nat) (c : Char) (hn : 0 < n)
    (hc : s.data.head? = some c) (hcs : isPySpace c = false) :
    pyStrip (pyTake s n) ≠ "" := by
  intro h
  rw [pyStrip_eq_empty_iff, pyStripList_eq_nil_iff] at h
  have hmem : c ∈ s.data.take n := by
    cases hd : s.data with
    | nil => rw [hd] at hc; exact Option.noConfusion hc
    | cons x xs =>
      rw [hd] at hc
      cases n with
      | zero => omega
      | succ m =>
        rw [List.head?_cons] at hc
        have hxc : x = c := Option.some.inj hc
        subst hxc
        rw [List.take_succ_cons]
        exact List.mem_cons_self _ _
  have hsp := h c hmem
  rw [hsp] at hcs
  exact Bool.noConfusion hcs

/-! ### Helper lemmas about the dispatcher -/

theorem mem_option_toList {α : Type} (o : Option α) (a : α) :
    a ∈ o.toList ↔ o = some a := by
  cases o <;> simp [Option.toList, eq_comm]

theorem askLlm_of_ok (env : Env) (u : String) (pOut fOut : HttpOutcome) (s : String)
    (hp : (primaryAttempt env u pOut).result = .ok s) :
    askLlm env u pOut fOut = ⟨(primaryAttempt env u pOut).sent.toList, false, .ok s⟩ := by
  simp [askLlm, hp]

theorem askLlm_of_error_not_tried (env : Env) (u : String) (pOut fOut : HttpOutcome)
    (e : PyExc) (hp : (primaryAttempt env u pOut).result = .error e)
    (hc : (isCaughtByAskLlm e && fallbackEligible env) = false) :
    askLlm env u pOut fOut = ⟨(primaryAttempt env u pOut).sent.toList, false, .error e⟩ := by
  simp [askLlm, hp, hc]

theorem askLlm_of_error_tried_ok (env : Env) (u : String) (pOut fOut : HttpOutcome)
    (e : PyExc) (s : String) (hp : (primaryAttempt env u pOut).result = .error e)
    (hc : (isCaughtByAskLlm e && fallbackEligible env) = true)
    (hf : (fallbackAttempt env u fOut).result = .ok s) :
    askLlm env u pOut fOut =
      ⟨(primaryAttempt env u pOut).sent.toList ++ (fallbackAttempt env u fOut).sent.toList,
        true, .ok s⟩ := by
  simp [askLlm, hp, hc, hf]

theorem askLlm_of_error_tried_error (env : Env) (u : String) (pOut fOut : HttpOutcome)
    (e e2 : PyExc) (hp : (primaryAttempt env u pOut).result = .error e)
    (hc : (isCaughtByAskLlm e && fallbackEligible env) = true)
    (hf : (fallbackAttempt env u fOut).result = .error e2) :
    askLlm env u pOut fOut =
      ⟨(primaryAttempt env u pOut).sent.toList ++ (fallbackAttempt env u fOut).sent.toList,
        true, .error e⟩ := by
  simp [askLlm, hp, hc, hf]

/-- Every POST issued by `_make_api_request` carries the provider it was
called with, the provider-selected timeout, and the provider-selected
payload shape. -/
theorem makeApiRequest_sent (env : Env) (userInput provider apiUrl model : String)
    (out : HttpOutcome) (r : SentRequest)
    (h : (makeApiRequest env userInput provider apiUrl model out).sent = some r) :
    r.provider = provider
    ∧ r.timeoutSeconds = timeoutFor provider
    ∧ (r.shape = .ollamaShape ↔ ¬(provider = API_PROVIDER_OPENAI)) := by
  by_cases hp : provider = API_PROVIDER_OPENAI
  · rcases hb : openaiBuild env userInput model with e | ⟨msgs, mn⟩ <;>
      simp [makeApiRequest, hp, hb] at h
    rw [← h]
    simp [hp]
  · simp [makeApiRequest, beq_iff_eq, hp] at h
    rw [← h]
    simp [hp]

theorem fallbackEligible_iff (env : Env) :
    fallbackEligible env = true
      ↔ env.apiProvider = API_PROVIDER_OLLAMA ∧ env.enableFallback = true
          ∧ keyTruthy env.openaiApiKey = true := by
  simp [fallbackEligible, Bool.and_eq_true, beq_iff_eq, and_assoc]

/-! ### Concrete configurations used as witnesses and counterexamples -/

/-- An Ollama-primary configuration with fallback enabled and a key present. -/
def ollamaEnv : Env :=
  ⟨API_PROVIDER_OLLAMA, true, some "sk-test", "You are a helpful bot.",
    "http://localhost:11434/api/chat", "https://api.openai.com/v1/chat/completions",
    "llama3.1:8b", "gpt-3.5-turbo", "gpt-3.5-turbo"⟩

/-- The default configuration: `API_PROVIDER` unset, so `"fallback"`. -/
def fallbackDefaultEnv : Env :=
  ⟨API_PROVIDER_FALLBACK, true, some "sk-test", "You are a helpful bot.",
    "http://localhost:11434/api/chat", "https://api.openai.com/v1/chat/completions",
    "llama3.1:8b", "gpt-3.5-turbo", "gpt-3.5-turbo"⟩

/-- An OpenAI-primary configuration with no API key. -/
def noKeyEnv : Env :=
  ⟨API_PROVIDER_OPENAI, true, none, "You are a helpful bot.",
    "http://localhost:11434/api/chat", "https://api.openai.com/v1/chat/completions",
    "llama3.1:8b", "gpt-3.5-turbo", "gpt-3.5-turbo"⟩

/-! ### The claims -/

/-- C1, counterexample: with an Ollama primary, fallback enabled and a key
present, a primary HTTP_STATUS failure (status 500, so
`raise_for_status()` raises `aiohttp.ClientResponseError`, a subclass of
`aiohttp.ClientError` caught at line 159) DOES trigger the fallback: the
fallback `try` block runs and two POSTs are issued, contradicting the
claimed "exactly one HTTP call and no fallback attempt". -/
theorem C1_counterexample :
    fallbackEligible ollamaEnv = true
    ∧ (primaryAttempt ollamaEnv "hi" (.response ⟨500, .decodeFailure⟩)).result
        = .error (.clientResponseError 500)
    ∧ (askLlm ollamaEnv "hi" (.response ⟨500, .decodeFailure⟩) .timeout).fallbackTried = true
    ∧ (askLlm ollamaEnv "hi" (.response ⟨500, .decodeFailure⟩) .timeout).attempts.length = 2 :=
  ⟨rfl, rfl, by decide, by decide⟩

/-- C1, amended: a fallback attempt is made if and only if the primary
provider string is `"ollama"`, fallback is enabled, a (truthy) fallback API
key is present, and the primary attempt failed with an exception caught by
the `except (aiohttp.ClientError, asyncio.TimeoutError)` clause — which
covers NETWORK, TIMEOUT, HTTP_STATUS and content-type MALFORMED_RESPONSE
failures, but not JSON-decode/structure failures or CONFIG_INVALID. -/
theorem C1_corrected (env : Env) (u : String) (pOut fOut : HttpOutcome) :
    (askLlm env u pOut fOut).fallbackTried = true
      ↔ env.apiProvider = API_PROVIDER_OLLAMA ∧ env.enableFallback = true
          ∧ keyTruthy env.openaiApiKey = true
          ∧ ∃ e, (primaryAttempt env u pOut).result = .error e
              ∧ isCaughtByAskLlm e = true := by
  rcases hp : (primaryAttempt env u pOut).result with e | s
  · by_cases hc : (isCaughtByAskLlm e && fallbackEligible env) = true
    · have hc2 := hc
      rw [Bool.and_eq_true, fallbackEligible_iff] at hc2
      rcases hf : (fallbackAttempt env u fOut).result with e2 | s2
      · rw [askLlm_of_error_tried_error env u pOut fOut e e2 hp hc hf]
        simp [hp]
        exact ⟨hc2.2.1, hc2.2.2.1, hc2.2.2.2, hc2.1⟩
      · rw [askLlm_of_error_tried_ok env u pOut fOut e s2 hp hc hf]
        simp [hp]
        exact ⟨hc2.2.1, hc2.2.2.1, hc2.2.2.2, hc2.1⟩
    · rw [askLlm_of_error_not_tried env u pOut fOut e hp (by simpa using hc)]
      simp [hp]
      intro h1 h2 h3
      rw [Bool.and_eq_true] at hc
      cases hca : isCaughtByAskLlm e with
      | false => rfl
      | true => exact absurd ⟨hca, (fallbackEligible_iff env).mpr ⟨h1, h2, h3⟩⟩ hc
  · rw [askLlm_of_ok env u pOut fOut s hp]
    simp [hp]

/-- C2, counterexample: a 2xx response whose JSON body is the object with no
fields (missing the whole provider schema) is returned as a SUCCESS with the
empty string — for both providers — because every lookup in
`data.get(...).get(...)` substitutes its default.  It is not a
MALFORMED_RESPONSE failure. -/
theorem C2_counterexample :
    transportResult API_PROVIDER_OLLAMA (.response ⟨200, .ok (.obj [])⟩) = .ok ""
    ∧ transportResult API_PROVIDER_OPENAI (.response ⟨200, .ok (.obj [])⟩) = .ok "" :=
  ⟨rfl, rfl⟩

/-- C2, amended: on a 2xx response whose JSON body is an object missing the
provider's expected keys (`message` for LOCAL, `choices` for REMOTE), the
Transport Executor returns a SUCCESS with the empty string (the `.get`
defaults), not a MALFORMED_RESPONSE failure; the caller's post-processing is
what turns the empty text into a placeholder. -/
theorem C2_corrected (st : Nat) (fs : List (String × Json)) (hst : st < 400)
    (hmsg : fs.find? (fun p => p.1 == "message") = none)
    (hch : fs.find? (fun p => p.1 == "choices") = none) :
    transportResult API_PROVIDER_OLLAMA (.response ⟨st, .ok (.obj fs)⟩) = .ok ""
    ∧ transportResult API_PROVIDER_OPENAI (.response ⟨st, .ok (.obj fs)⟩) = .ok "" := by
  have hn : ¬(400 ≤ st) := by omega
  constructor
  · simp [transportResult, hn, extractOllama, jsonGet, hmsg, jsonStrip]
    rfl
  · simp [transportResult, hn, extractOpenai, jsonGet, hch, jsonIndexZero, jsonStrip]
    rfl

/-- C2, witness for the amended theorem at a concrete input. -/
theorem C2_witness :
    transportResult API_PROVIDER_OLLAMA (.response ⟨200, .ok (.obj [("done", .bool true)])⟩)
        = .ok ""
    ∧ transportResult API_PROVIDER_OPENAI (.response ⟨200, .ok (.obj [("done", .bool true)])⟩)
        = .ok "" :=
  C2_corrected 200 [("done", .bool true)] (by decide) rfl rfl

/-- C4: if the fallback attempt is made and itself fails — with any modelled
exception whatsoever, since line 167 catches `Exception` — `ask_llm`
re-raises the original primary error (line 169), discarding the fallback's
specific error. -/
theorem C4_confirmed (env : Env) (u : String) (pOut fOut : HttpOutcome) (e e2 : PyExc)
    (hp : (primaryAttempt env u pOut).result = .error e)
    (hc : isCaughtByAskLlm e = true)
    (he : fallbackEligible env = true)
    (hf : (fallbackAttempt env u fOut).result = .error e2) :
    (askLlm env u pOut fOut).result = .error e := by
  rw [askLlm_of_error_tried_error env u pOut fOut e e2 hp (by simp [hc, he]) hf]

/-- C4, witness: primary NETWORK failure, fallback HTTP 401 failure; the
dispatcher surfaces the primary `ClientConnectorError`, not the 401. -/
theorem C4_witness :
    (askLlm ollamaEnv "hi" .connFailure (.response ⟨401, .decodeFailure⟩)).result
      = .error .clientConnectorError :=
  C4_confirmed ollamaEnv "hi" .connFailure (.response ⟨401, .decodeFailure⟩)
    .clientConnectorError (.clientResponseError 401) rfl rfl rfl rfl

/-- C3, counterexample: `postprocess("", 0)` returns the fixed
"having trouble responding" placeholder, whose length is NOT `≤ 0` — the
second placeholder is substituted after truncation and is itself never
truncated, so the claimed length bound fails at `max_length = 0`. -/
theorem C3_counterexample :
    postprocess "" 0 = havingTroublePlaceholder
    ∧ ¬((postprocess "" 0).length ≤ 0) :=
  ⟨rfl, by decide⟩

/-- C3, amended: the post-processed reply is never empty or whitespace-only,
and its length is bounded by `max_length` EXCEPT when the truncated text was
blank, in which case the fixed (untruncated) "having trouble responding"
placeholder is returned; `postprocess("", N)` for `N > 0` returns the first
`N` characters of the non-empty "could not generate" placeholder. -/
theorem C3_corrected (T : String) (N : Nat) :
    pyStrip (postprocess T N) ≠ ""
    ∧ ((postprocess T N).length ≤ N ∨ postprocess T N = havingTroublePlaceholder)
    ∧ (0 < N →
        postprocess "" N = pyTake couldNotGeneratePlaceholder N
        ∧ postprocess "" N ≠ "") := by
  refine ⟨?_, ?_, ?_⟩
  · by_cases h : pyStrip (truncatedReply T N) = ""
    · simp [postprocess, h]
      decide
    · simp [postprocess, h]
  · by_cases h : pyStrip (truncatedReply T N) = ""
    · simp [postprocess, h]
    · simp [postprocess, h]
      left
      exact pyTake_length_le _ _
  · intro hN
    have hsub : substituteEmpty "" = couldNotGeneratePlaceholder := rfl
    have hne : pyStrip (truncatedReply "" N) ≠ "" := by
      show pyStrip (pyTake (substituteEmpty "") N) ≠ ""
      rw [hsub]
      exact pyStrip_pyTake_ne couldNotGeneratePlaceholder N 'I' hN rfl (by decide)
    constructor
    · simp [postprocess, hne]
      rfl
    · intro h0
      apply hne
      have : postprocess "" N = truncatedReply "" N := by simp [postprocess, hne]
      rw [← this, h0]
      rfl

/-- C3, witness for the amended theorem at `T = ""`, `N = 2`. -/
theorem C3_witness :
    postprocess "" 2 = pyTake couldNotGeneratePlaceholder 2
    ∧ postprocess "" 2 ≠ "" :=
  (C3_corrected "" 2).2.2 (by decide)

/-- C6, counterexample: with `max_length = 1 > 0` and the (non-blank) reply
`" a"`, the placeholder substitution does not fire, truncation keeps only
the leading space, and the truncated result IS whitespace-only: the second
"having trouble responding" branch is reached with `max_length > 0` and the
placeholder logic fully in place. -/
theorem C6_counterexample :
    pyStrip " a" ≠ ""
    ∧ substituteEmpty " a" = " a"
    ∧ truncatedReply " a" 1 = " "
    ∧ pyStrip (truncatedReply " a" 1) = ""
    ∧ postprocess " a" 1 = havingTroublePlaceholder :=
  ⟨by decide, rfl, rfl, rfl, rfl⟩

/-- C6, amended: for `max_length > 0` the truncated result is non-blank —
and the second placeholder branch is therefore not taken — provided the text
after placeholder substitution starts with a non-whitespace character; when
it starts with `max_length` or more whitespace characters the second
placeholder branch is reachable even for `max_length > 0`. -/
theorem C6_corrected (T : String) (N : Nat) (c : Char) (hN : 0 < N)
    (hc : (substituteEmpty T).data.head? = some c) (hcs : isPySpace c = false) :
    postprocess T N = truncatedReply T N
    ∧ pyStrip (postprocess T N) ≠ ""
    ∧ (postprocess T N).length ≤ N := by
  have hne : pyStrip (truncatedReply T N) ≠ "" :=
    pyStrip_pyTake_ne (substituteEmpty T) N c hN hc hcs
  have hpp : postprocess T N = truncatedReply T N := by simp [postprocess, hne]
  refine ⟨hpp, ?_, ?_⟩
  · rw [hpp]
    exact hne
  · rw [hpp]
    exact pyTake_length_le _ _

/-- C6, witness for the amended theorem at `T = "hi"`, `N = 1`. -/
theorem C6_witness :
    postprocess "hi" 1 = truncatedReply "hi" 1
    ∧ pyStrip (postprocess "hi" 1) ≠ ""
    ∧ (postprocess "hi" 1).length ≤ 1 :=
  C6_corrected "hi" 1 'h' (by decide) rfl (by decide)

/-- Every request a dispatch issues comes from the primary attempt or the
fallback attempt. -/
theorem askLlm_attempt_sent (env : Env) (u : String) (pOut fOut : HttpOutcome)
    (r : SentRequest) (hr : r ∈ (askLlm env u pOut fOut).attempts) :
    (primaryAttempt env u pOut).sent = some r
    ∨ (fallbackAttempt env u fOut).sent = some r := by
  rcases hp : (primaryAttempt env u pOut).result with e | s
  · by_cases hc : (isCaughtByAskLlm e && fallbackEligible env) = true
    · rcases hf : (fallbackAttempt env u fOut).result with e2 | s2
      · rw [askLlm_of_error_tried_error env u pOut fOut e e2 hp hc hf] at hr
        simpa [mem_option_toList] using hr
      · rw [askLlm_of_error_tried_ok env u pOut fOut e s2 hp hc hf] at hr
        simpa [mem_option_toList] using hr
    · rw [askLlm_of_error_not_tried env u pOut fOut e hp (by simpa using hc)] at hr
      left
      simpa [mem_option_toList] using hr
  · rw [askLlm_of_ok env u pOut fOut s hp] at hr
    left
    simpa [mem_option_toList] using hr

/-- C5, counterexample: under the default configuration (provider string
`"fallback"`), the primary request is Ollama-shaped and goes to the local
endpoint, but its timeout is selected by `provider == "ollama"` and is
therefore the 30-second REMOTE timeout, not 5 seconds — refuting
"5 seconds for every Ollama-shaped request". -/
theorem C5_counterexample :
    (primaryAttempt fallbackDefaultEnv "hi" .timeout).sent.map SentRequest.shape
        = some .ollamaShape
    ∧ (primaryAttempt fallbackDefaultEnv "hi" .timeout).sent.map SentRequest.url
        = some "http://localhost:11434/api/chat"
    ∧ (primaryAttempt fallbackDefaultEnv "hi" .timeout).sent.map SentRequest.timeoutSeconds
        = some REMOTE_API_TIMEOUT :=
  ⟨rfl, rfl, rfl⟩

/-- C5, amended: the timeout of every issued request is selected by the
provider STRING, not by the payload shape: 5 seconds exactly when the
provider is `"ollama"`, 30 seconds otherwise — in particular the
Ollama-shaped request of the default `"fallback"` provider gets 30 seconds.
The payload is Ollama-shaped exactly when the provider is not `"openai"`. -/
theorem C5_corrected (env : Env) (u : String) (pOut fOut : HttpOutcome)
    (r : SentRequest) (hr : r ∈ (askLlm env u pOut fOut).attempts) :
    (r.provider = API_PROVIDER_OLLAMA → r.timeoutSeconds = LOCAL_LLM_TIMEOUT)
    ∧ (¬(r.provider = API_PROVIDER_OLLAMA) → r.timeoutSeconds = REMOTE_API_TIMEOUT)
    ∧ (r.shape = .ollamaShape ↔ ¬(r.provider = API_PROVIDER_OPENAI)) := by
  have hsent : (primaryAttempt env u pOut).sent = some r
      ∨ (fallbackAttempt env u fOut).sent = some r :=
    askLlm_attempt_sent env u pOut fOut r hr
  have hprops : r.timeoutSeconds = timeoutFor r.provider
      ∧ (r.shape = .ollamaShape ↔ ¬(r.provider = API_PROVIDER_OPENAI)) := by
    rcases hsent with h | h
    · rcases makeApiRequest_sent env u env.apiProvider env.primaryUrl env.primaryModel
        pOut r h with ⟨h1, h2, h3⟩
      rw [← h1] at h2 h3
      exact ⟨h2, h3⟩
    · rcases makeApiRequest_sent env u API_PROVIDER_OPENAI env.openaiUrl env.fallbackModel
        fOut r h with ⟨h1, h2, h3⟩
      rw [← h1] at h2
      refine ⟨h2, ?_⟩
      rw [h1]
      exact h3
  rcases hprops with ⟨h2, h3⟩
  refine ⟨?_, ?_, h3⟩
  · intro ho
    rw [h2]
    simp [timeoutFor, ho]
  · intro ho
    have hb : (r.provider == API_PROVIDER_OLLAMA) = false := beq_eq_false_iff_ne.mpr ho
    rw [h2]
    simp [timeoutFor, hb]

/-- The POST issued by the primary attempt of `ollamaEnv` for input "hi". -/
def sampleOllamaRequest : SentRequest :=
  ⟨API_PROVIDER_OLLAMA, "http://localhost:11434/api/chat", .ollamaShape, false,
    [("system", "You are a helpful bot."), ("user", "hi")], "llama3.1:8b",
    LOCAL_LLM_TIMEOUT⟩

/-- C5, witness for the amended theorem at a concrete dispatched request. -/
theorem C5_witness :
    (sampleOllamaRequest.provider = API_PROVIDER_OLLAMA →
      sampleOllamaRequest.timeoutSeconds = LOCAL_LLM_TIMEOUT)
    ∧ (¬(sampleOllamaRequest.provider = API_PROVIDER_OLLAMA) →
      sampleOllamaRequest.timeoutSeconds = REMOTE_API_TIMEOUT)
    ∧ (sampleOllamaRequest.shape = .ollamaShape
        ↔ ¬(sampleOllamaRequest.provider = API_PROVIDER_OPENAI)) :=
  C5_corrected ollamaEnv "hi" .timeout .timeout sampleOllamaRequest (by decide)

/-- C7: an OpenAI-provider request build with a missing (`None`) or empty
API key raises `ValueError` (CONFIG_INVALID) at line 195-196, before
`session.post` is ever reached: no request is sent (0 HTTP calls). -/
theorem C7_confirmed (env : Env) (userInput apiUrl model : String) (out : HttpOutcome)
    (hk : env.openaiApiKey = none ∨ env.openaiApiKey = some "") :
    (makeApiRequest env userInput API_PROVIDER_OPENAI apiUrl model out).sent = none
    ∧ (makeApiRequest env userInput API_PROVIDER_OPENAI apiUrl model out).result
        = .error (.valueError "OPENAI_API_KEY is required when using OpenAI provider") := by
  have hkt : keyTruthy env.openaiApiKey = false := by
    rcases hk with h | h <;> simp [h, keyTruthy]
  constructor <;> simp [makeApiRequest, openaiBuild, hkt]

/-- C7, witness: the no-key configuration issues no POST. -/
theorem C7_witness :
    (makeApiRequest noKeyEnv "hi" API_PROVIDER_OPENAI
        "https://api.openai.com/v1/chat/completions" "gpt-3.5-turbo" .timeout).sent = none
    ∧ (makeApiRequest noKeyEnv "hi" API_PROVIDER_OPENAI
        "https://api.openai.com/v1/chat/completions" "gpt-3.5-turbo" .timeout).result
      = .error (.valueError "OPENAI_API_KEY is required when using OpenAI provider") :=
  C7_confirmed noKeyEnv "hi" "https://api.openai.com/v1/chat/completions"
    "gpt-3.5-turbo" .timeout (Or.inl rfl)

/-- C8: extracted response text is stripped of surrounding whitespace for
both providers, the empty string is a valid success, and the concrete
scenario holds: a LOCAL body with content `"  Hello!  "` dispatches to
`"Hello!"`, which post-processing with max length 400 leaves unchanged. -/
theorem C8_confirmed (s : String) :
    extractOllama (.obj [("message", .obj [("content", .str s)])]) = .ok (pyStrip s)
    ∧ extractOpenai (.obj [("choices",
        .arr [.obj [("message", .obj [("content", .str s)])]])]) = .ok (pyStrip s)
    ∧ extractOllama (.obj [("message", .obj [("content", .str "")])]) = .ok ""
    ∧ (askLlm ollamaEnv "hi"
        (.response ⟨200, .ok (.obj [("message", .obj [("content", .str "  Hello!  ")])])⟩)
        .timeout).result = .ok "Hello!"
    ∧ postprocess "Hello!" MAX_RESPONSE_LENGTH = "Hello!" :=
  ⟨rfl, rfl, rfl, rfl, rfl⟩

/-- C9: a fallback attempt requires the provider string to be exactly
`"ollama"`; under the default `"fallback"` provider the primary request uses
the Ollama model and URL and an Ollama-shaped payload but the 30-second
REMOTE timeout, and every primary failure surfaces with no fallback
attempt. -/
theorem C9_confirmed (env : Env) (u : String) (pOut fOut : HttpOutcome) :
    ((askLlm env u pOut fOut).fallbackTried = true → env.apiProvider = API_PROVIDER_OLLAMA)
    ∧ (env.apiProvider = API_PROVIDER_FALLBACK →
        env.primaryModel = env.ollamaModel
        ∧ env.primaryUrl = env.ollamaUrl
        ∧ (∀ r, (primaryAttempt env u pOut).sent = some r →
            r.shape = .ollamaShape ∧ r.timeoutSeconds = REMOTE_API_TIMEOUT)
        ∧ (∀ e, (primaryAttempt env u pOut).result = .error e →
            (askLlm env u pOut fOut).result = .error e
            ∧ (askLlm env u pOut fOut).fallbackTried = false)) := by
  constructor
  · intro h
    rcases hp : (primaryAttempt env u pOut).result with e | s
    · by_cases hc : (isCaughtByAskLlm e && fallbackEligible env) = true
      · have hc2 := hc
        rw [Bool.and_eq_true] at hc2
        exact ((fallbackEligible_iff env).mp hc2.2).1
      · rw [askLlm_of_error_not_tried env u pOut fOut e hp (by simpa using hc)] at h
        exact Bool.noConfusion h
    · rw [askLlm_of_ok env u pOut fOut s hp] at h
      exact Bool.noConfusion h
  · intro hfb
    have hne : ¬(env.apiProvider = API_PROVIDER_OPENAI) := by rw [hfb]; decide
    refine ⟨?_, ?_, ?_, ?_⟩
    · unfold Env.primaryModel
      rw [hfb]
      simp [API_PROVIDER_FALLBACK, API_PROVIDER_OPENAI]
    · unfold Env.primaryUrl
      rw [hfb]
      simp [API_PROVIDER_FALLBACK, API_PROVIDER_OPENAI]
    · intro r hr
      rcases makeApiRequest_sent env u env.apiProvider env.primaryUrl env.primaryModel
        pOut r hr with ⟨h1, h2, h3⟩
      refine ⟨h3.mpr hne, ?_⟩
      rw [h2, hfb]
      decide
    · intro e he
      have hel : fallbackEligible env = false := by
        unfold fallbackEligible
        rw [hfb]
        simp [API_PROVIDER_FALLBACK, API_PROVIDER_OLLAMA]
      rw [askLlm_of_error_not_tried env u pOut fOut e he (by simp [hel])]
      exact ⟨rfl, rfl⟩

/-- C9, witness: under the concrete default configuration, a primary timeout
surfaces unchanged, with no fallback. -/
theorem C9_witness :
    fallbackDefaultEnv.primaryModel = fallbackDefaultEnv.ollamaModel
    ∧ fallbackDefaultEnv.primaryUrl = fallbackDefaultEnv.ollamaUrl
    ∧ (askLlm fallbackDefaultEnv "hi" .timeout .timeout).result = .error .timeoutError
    ∧ (askLlm fallbackDefaultEnv "hi" .timeout .timeout).fallbackTried = false := by
  have h := (C9_confirmed fallbackDefaultEnv "hi" .timeout .timeout).2 rfl
  exact ⟨h.1, h.2.1, (h.2.2.2 .timeoutError rfl).1, (h.2.2.2 .timeoutError rfl).2⟩

/-- C10: `load_system_prompt` always returns a non-empty (and
non-whitespace-only) prompt — the fixed fallback prompt when the file is
missing or blank, the stripped file content otherwise — so a REMOTE build
(with a valid key and non-blank user input) always includes the system
message, and a LOCAL build always carries the prompt verbatim. -/
theorem C10_confirmed (file : Option String) (env : Env)
    (userInput apiUrl model provider : String) (out : HttpOutcome) :
    load_system_prompt file ≠ ""
    ∧ pyStrip (load_system_prompt file) ≠ ""
    ∧ (keyTruthy env.openaiApiKey = true → ¬(pyStrip userInput = "") →
        ∃ r, (makeApiRequest { env with systemPrompt := load_system_prompt file }
            userInput API_PROVIDER_OPENAI apiUrl model out).sent = some r
          ∧ ("system", pyStrip (load_system_prompt file)) ∈ r.messages)
    ∧ (¬(provider = API_PROVIDER_OPENAI) →
        ∃ r, (makeApiRequest { env with systemPrompt := load_system_prompt file }
            userInput provider apiUrl model out).sent = some r
          ∧ r.messages = [("system", load_system_prompt file), ("user", userInput)]) := by
  have hcases : load_system_prompt file = fallbackSystemPrompt
      ∨ ∃ c, load_system_prompt file = pyStrip c ∧ pyStrip c ≠ "" := by
    cases file with
    | none => exact Or.inl rfl
    | some c =>
      by_cases hc : pyStrip c = ""
      · exact Or.inl (by simp [load_system_prompt, hc])
      · exact Or.inr ⟨c, by simp [load_system_prompt, hc], hc⟩
  have h1 : load_system_prompt file ≠ "" := by
    rcases hcases with h | ⟨c, hl, hc⟩
    · rw [h]; decide
    · rw [hl]; exact hc
  have h2 : pyStrip (load_system_prompt file) ≠ "" := by
    rcases hcases with h | ⟨c, hl, hc⟩
    · rw [h]; decide
    · rw [hl]; exact pyStrip_pyStrip_ne c hc
  refine ⟨h1, h2, ?_, ?_⟩
  · intro hk hu
    have hb1 : (load_system_prompt file == "") = false := beq_eq_false_iff_ne.mpr h1
    have hb2 : (pyStrip (load_system_prompt file) == "") = false := beq_eq_false_iff_ne.mpr h2
    have hb3 : (pyStrip userInput == "") = false := beq_eq_false_iff_ne.mpr hu
    have hob : openaiBuild { env with systemPrompt := load_system_prompt file } userInput model
        = .ok ([("system", pyStrip (load_system_prompt file)), ("user", pyStrip userInput)],
            if pyStrip model == "" then DEFAULT_OPENAI_MODEL else pyStrip model) := by
      simp [openaiBuild, hk, hb1, hb2, hb3]
    refine ⟨⟨API_PROVIDER_OPENAI, apiUrl, PayloadShape.openaiShape, true,
        [("system", pyStrip (load_system_prompt file)), ("user", pyStrip userInput)],
        if pyStrip model == "" then DEFAULT_OPENAI_MODEL else pyStrip model,
        timeoutFor API_PROVIDER_OPENAI⟩, ?_, ?_⟩
    · simp [makeApiRequest, hob]
    · simp
  · intro hpv
    have hb : (provider == API_PROVIDER_OPENAI) = false := beq_eq_false_iff_ne.mpr hpv
    exact ⟨⟨provider, apiUrl, PayloadShape.ollamaShape, false,
        [("system", load_system_prompt file), ("user", userInput)], model, timeoutFor provider⟩,
      by simp [makeApiRequest, hb], rfl⟩

/-- C10, witness at a missing prompt file with the Ollama configuration. -/
theorem C10_witness :
    load_system_prompt none ≠ ""
    ∧ pyStrip (load_system_prompt none) ≠ ""
    ∧ (∃ r, (makeApiRequest { ollamaEnv with systemPrompt := load_system_prompt none }
        "hi" API_PROVIDER_OPENAI "https://api.openai.com/v1/chat/completions"
        "gpt-3.5-turbo" .timeout).sent = some r
        ∧ ("system", pyStrip (load_system_prompt none)) ∈ r.messages)
    ∧ (∃ r, (makeApiRequest { ollamaEnv with systemPrompt := load_system_prompt none }
        "hi" API_PROVIDER_OLLAMA "https://api.openai.com/v1/chat/completions"
        "gpt-3.5-turbo" .timeout).sent = some r
        ∧ r.messages = [("system", load_system_prompt none), ("user", "hi")]) := by
  have h := C10_confirmed none ollamaEnv "hi"
    "https://api.openai.com/v1/chat/completions" "gpt-3.5-turbo" API_PROVIDER_OLLAMA .timeout
  exact ⟨h.1, h.2.1, h.2.2.1 (by decide) (by decide), h.2.2.2 (by decide)⟩

end CooperBot
